import Mathlib

/-!
Shallow embedding of `src/script-compiler/latex_service.py` (a Flask LaTeX
compilation service) together with proofs about its specification claims.

Conventions of the embedding:
- Python strings become `String`; character-level operations (`startswith`,
  `endswith`, `in`, `split`, slicing, `lower`) are re-implemented structurally
  over `List Char` so that the kernel can evaluate them.  Filenames in this
  service are ASCII, so ASCII lowering is faithful.
- `subprocess.run` either completes with an integer return code or raises
  (`TimeoutExpired`, `CalledProcessError`, other) — modelled by `RunResult`.
- Filesystem facts that the code merely observes (does the PDF exist, which
  `*.pytxcode` / `*.log` / `*.tex` files a glob finds, does magic sniffing
  succeed) are inputs of the model; everything the code computes from them
  is translated from the source.
- Python exceptions are the inductive `PyExn`; `try/except` becomes matching
  on `Except PyExn _` values.
-/

set_option autoImplicit false

/-! ## Character/string helpers (Python `str` operations, kernel-reducible) -/

/-- Python `s.startswith(pat)` on exploded strings. -/
def startsWithSeq : List Char → List Char → Bool
  | [], _ => true
  | _ :: _, [] => false
  | p :: ps, c :: cs => p = c && startsWithSeq ps cs

/-- Python `pat in s` (substring containment) on exploded strings. -/
def containsSeq (pat : List Char) : List Char → Bool
  | [] => pat.isEmpty
  | c :: cs => startsWithSeq pat (c :: cs) || containsSeq pat cs

/-- Python `pat in s` for `String`s. -/
def strIn (pat s : String) : Bool := containsSeq pat.toList s.toList

/-- Python `s.startswith(pat)` for `String`s. -/
def strStartsWith (s pat : String) : Bool := startsWithSeq pat.toList s.toList

/-- Python `s.endswith(pat)` for `String`s. -/
def strEndsWith (s pat : String) : Bool :=
  startsWithSeq pat.toList.reverse s.toList.reverse

/-- ASCII lowering of one character (the filenames handled here are ASCII). -/
def lowerChar (c : Char) : Char :=
  if 'A' ≤ c ∧ c ≤ 'Z' then Char.ofNat (c.toNat + 32) else c

/-- Python `s.lower()` for ASCII strings. -/
def lowerStr (s : String) : String := String.mk (s.toList.map lowerChar)

/-- Python `s in lst` for a list of strings. -/
def strMem (s : String) : List String → Bool
  | [] => false
  | t :: ts => if s = t then true else strMem s ts

/-- Index of the last `'.'` in a character list, if any
(Python `name.rfind('.')`, restricted to the found case). -/
def rfindDot : List Char → Option Nat
  | [] => none
  | c :: cs =>
    match rfindDot cs with
    | some i => some (i + 1)
    | none => if c = '.' then some 0 else none

/-- Python `pathlib.PurePath.suffix` of a file name: the part from the last
dot on, unless the dot is the first or the last character of the name. -/
def pathSuffix (name : String) : String :=
  match rfindDot name.toList with
  | none => ""
  | some i =>
    if 0 < i ∧ i < name.toList.length - 1 then String.mk (name.toList.drop i) else ""

/-- Python `pathlib.PurePath.stem` of a file name: the name with its
`pathSuffix` removed. -/
def pathStem (name : String) : String :=
  match rfindDot name.toList with
  | none => name
  | some i =>
    if 0 < i ∧ i < name.toList.length - 1 then String.mk (name.toList.take i) else name

/-- Python `s.split('\n')` on a character list; keeps empty pieces,
like Python `str.split` with an explicit separator. -/
def splitLinesAux (acc : List Char) : List Char → List (List Char)
  | [] => [acc.reverse]
  | c :: cs =>
    if c = '\n' then acc.reverse :: splitLinesAux [] cs else splitLinesAux (c :: acc) cs

/-- Python `content.split('\n')`. -/
def splitLines (s : String) : List (List Char) := splitLinesAux [] s.toList

/-! ## Exceptions and process-level inputs -/

/-- The Python exception values the service can see.  `str(e)` of the message
constructors is their message payload. -/
inductive PyExn where
  | timeoutExpired
  | calledProcessError
  | valueError (msg : String)
  | runtimeError (msg : String)
  | badZipFile (msg : String)
  | readError (msg : String)
  | fileNotFound (msg : String)
  | permissionError (msg : String)
  | otherExn (msg : String)
deriving DecidableEq, BEq, Repr

/-- Python `str(e)` for the exceptions above. -/
def pyStr : PyExn → String
  | PyExn.timeoutExpired => "Command timed out after 300 seconds"
  | PyExn.calledProcessError => "Command returned non-zero exit status"
  | PyExn.valueError m => m
  | PyExn.runtimeError m => m
  | PyExn.badZipFile m => m
  | PyExn.readError m => m
  | PyExn.fileNotFound m => m
  | PyExn.permissionError m => m
  | PyExn.otherExn m => m

/-- Optional-capability flags resolved at import time:
`RAR_SUPPORTED` (rarfile) and `SEVENZ_SUPPORTED` (py7zr). -/
structure Caps where
  rarSupported : Bool
  sevenzSupported : Bool
deriving DecidableEq, Repr

/-! ## Archive data model -/

/-- One member of a zip archive: its name and whether its stored CRC matches
its data (`False` = the member is corrupt). -/
structure ZipMember where
  name : String
  crcOk : Bool
deriving DecidableEq, Repr

/-- A tar archive: whether `tarfile.open` succeeds, the members that extract
cleanly (in order), and whether a decompression error hits after them. -/
structure TarData where
  openOk : Bool
  members : List String
  corruptTail : Bool
deriving DecidableEq, Repr

/-- The actual bytes behind an uploaded file, as the concrete archive
libraries would parse them.  `rawBytes` is any non-archive content. -/
inductive ArchiveData where
  | zipA (structOk : Bool) (members : List ZipMember)
  | tarA (t : TarData)
  | rarA (members : List String)
  | sevenA (members : List String)
  | rawBytes
deriving DecidableEq, Repr

/-- An on-disk file as the service sees it: its final path component, the
result of magic-byte sniffing (`none` when `python-magic` is unavailable or
`magic.from_file` raises — both fall back identically), whether the file
exists, and its content. -/
structure FileInfo where
  name : String
  magicMime : Option String
  onDisk : Bool
  data : ArchiveData
deriving DecidableEq, Repr

/-! ## `detect_file_type` and `is_archive_file` (source lines 42–102) -/

/-- `SUPPORTED_EXTENSIONS` from the source (a `set` there; order irrelevant,
only membership is used). -/
def SUPPORTED_EXTENSIONS : List String :=
  [".zip", ".tar", ".tar.gz", ".tar.bz2", ".tar.xz", ".rar", ".7z"]

/-- The keys of the `ARCHIVE_MIMES` dict from the source (only `mime_type in
ARCHIVE_MIMES`, i.e. key membership, is ever used). -/
def ARCHIVE_MIMES : List String :=
  ["application/zip", "application/x-zip-compressed", "application/x-tar",
   "application/x-gtar", "application/x-rar-compressed",
   "application/x-7z-compressed", "application/x-bzip2", "application/x-xz"]

/-- `detect_file_type`: magic-based MIME when sniffing succeeds, otherwise the
extension lookup over `Path.suffix` (which is only the LAST dotted component
of the name). -/
def detect_file_type (f : FileInfo) : String :=
  match f.magicMime with
  | some mime => mime
  | none =>
    let suffix := lowerStr (pathSuffix f.name)
    if suffix = ".zip" then "application/zip"
    else if strMem suffix [".tar", ".tar.gz", ".tar.bz2", ".tar.xz"] then "application/x-tar"
    else if suffix = ".rar" then "application/x-rar-compressed"
    else if suffix = ".7z" then "application/x-7z-compressed"
    else "application/octet-stream"

/-- `is_archive_file`: MIME-key check, then extension check, then the
compressed-tar compound-name check. -/
def is_archive_file (f : FileInfo) : Bool :=
  let mime := detect_file_type f
  let ext := lowerStr (pathSuffix f.name)
  let filename := lowerStr f.name
  if strMem mime ARCHIVE_MIMES then true
  else if strMem ext SUPPORTED_EXTENSIONS then true
  else if strEndsWith filename ".tar.gz" || strEndsWith filename ".tar.bz2"
       || strEndsWith filename ".tar.xz" then true
  else false

/-! ## `extract_archive` (source lines 282–338) -/

/-- `ZipFile.testzip()`: reads every member, returns the name of the first one
whose CRC check fails, else `none`.  (It catches the per-member `BadZipFile`
itself and only reports the name.) -/
def zip_testzip (members : List ZipMember) : Option String :=
  (members.find? (fun m => m.crcOk = false)).map (fun m => m.name)

/-- `ZipFile.extractall(dest)`: writes members in order; a CRC-corrupt member
is still written to `dest` before its checksum failure raises `BadZipFile`,
so extraction stops after writing it.  Returns the written names and the
message of the raised `BadZipFile`, if any. -/
def zip_extractall : List ZipMember → List String × Option String
  | [] => ([], none)
  | m :: ms =>
    if m.crcOk then
      let r := zip_extractall ms
      (m.name :: r.1, r.2)
    else
      ([m.name], some ("Bad CRC-32 for file " ++ m.name))

/-- `tarfile.open(...).extractall(dest)` on parsed tar data: open may raise
`ReadError`; otherwise the clean members are written and a corrupt tail
raises after them. -/
def tar_extract (t : TarData) : List String × Except PyExn Unit :=
  if t.openOk = false then
    ([], Except.error (PyExn.readError "file could not be opened successfully"))
  else if t.corruptTail then
    (t.members, Except.error (PyExn.readError "unexpected end of data"))
  else
    (t.members, Except.ok ())

/-- `shutil.unpack_archive` fallback: dispatches on registered filename
extensions (zip / the tar family) and otherwise raises `ReadError`.  Its zip
unpacker checks `is_zipfile` first and does not call `testzip`. -/
def shutil_unpack (f : FileInfo) : List String × Except PyExn Unit :=
  if strEndsWith f.name ".zip" then
    match f.data with
    | ArchiveData.zipA structOk members =>
      if structOk then
        match zip_extractall members with
        | (written, none) => (written, Except.ok ())
        | (written, some m) => (written, Except.error (PyExn.badZipFile m))
      else ([], Except.error (PyExn.readError (f.name ++ " is not a zip file")))
    | _ => ([], Except.error (PyExn.readError (f.name ++ " is not a zip file")))
  else if strEndsWith f.name ".tar" || strEndsWith f.name ".tar.gz"
       || strEndsWith f.name ".tgz" || strEndsWith f.name ".tar.bz2"
       || strEndsWith f.name ".tbz2" || strEndsWith f.name ".tar.xz"
       || strEndsWith f.name ".txz" then
    match f.data with
    | ArchiveData.tarA t => tar_extract t
    | _ => ([], Except.error (PyExn.readError "file could not be opened successfully"))
  else
    ([], Except.error (PyExn.readError ("Unknown archive format " ++ f.name)))

/-- `extract_archive(archive_path, dest)`: returns the file names written into
`dest` (observable side effect) and either success or the Python exception
that propagates to the caller.  Branch structure and messages follow the
source; note that the zip branch computes `testzip` and DISCARDS its result,
exactly as the source does. -/
def extract_archive (caps : Caps) (f : FileInfo) : List String × Except PyExn Unit :=
  if is_archive_file f = false then
    ([], Except.error (PyExn.valueError ("Unsupported archive format: " ++ pathSuffix f.name)))
  else
    let mime := detect_file_type f
    let suffix := lowerStr (pathSuffix f.name)
    if f.onDisk = false then
      ([], Except.error (PyExn.fileNotFound ("Archive file not found: " ++ f.name)))
    else if strMem mime ["application/zip", "application/x-zip-compressed"] || suffix = ".zip" then
      match f.data with
      | ArchiveData.zipA structOk members =>
        if structOk = false then
          ([], Except.error (PyExn.valueError "Invalid ZIP file: File is not a zip file"))
        else
          let _testResult := zip_testzip members
          match zip_extractall members with
          | (written, none) => (written, Except.ok ())
          | (written, some m) =>
            (written, Except.error (PyExn.valueError ("Invalid ZIP file: " ++ m)))
      | _ => ([], Except.error (PyExn.valueError "Invalid ZIP file: File is not a zip file"))
    else if strIn "tar" (lowerStr mime) || strStartsWith suffix ".tar"
         || strEndsWith f.name ".tar.gz" || strEndsWith f.name ".tar.bz2"
         || strEndsWith f.name ".tar.xz" then
      match f.data with
      | ArchiveData.tarA t => tar_extract t
      | _ => ([], Except.error (PyExn.readError "file could not be opened successfully"))
    else if mime = "application/x-rar-compressed" || suffix = ".rar" then
      if caps.rarSupported = false then
        ([], Except.error (PyExn.runtimeError "RAR format not supported (rarfile module not available)"))
      else
        match f.data with
        | ArchiveData.rarA members => (members, Except.ok ())
        | _ => ([], Except.error (PyExn.otherExn "BadRarFile"))
    else if mime = "application/x-7z-compressed" || suffix = ".7z" then
      if caps.sevenzSupported = false then
        ([], Except.error (PyExn.runtimeError "7Z format not supported (py7zr module not available)"))
      else
        match f.data with
        | ArchiveData.sevenA members => (members, Except.ok ())
        | _ => ([], Except.error (PyExn.otherExn "Bad7zFile"))
    else
      shutil_unpack f

/-! ## `compile_latex` (source lines 104–217) -/

/-- Outcome of one `subprocess.run` invocation: a completed process with its
return code, or a raised exception. -/
inductive RunResult where
  | returns (returncode : Int)
  | raises (e : PyExn)
deriving DecidableEq, Repr

/-- The three toolchain invocations of the pipeline. -/
inductive Pass where
  | primary
  | pythontex
  | final
deriving DecidableEq, Repr

/-- Everything `compile_latex` observes from the outside world: the behavior
of its three possible subprocess invocations, the `*.pytxcode` files the
first pass left in `work_dir`, the text of the entry `.tex` file (`none` when
reading it raises — caught in the source), and whether the target PDF exists
at the check points after the passes. -/
structure CompileEnv where
  pass1 : RunResult
  pytxcodeFiles : List String
  texContent : Option String
  pythontexRun : RunResult
  finalRun : RunResult
  pdfExists : Bool
deriving DecidableEq, Repr

/-- The `.tex`-content check of lines 143–150: Python parses the condition as
`A or (B and C)` with `A = '\usepackage{pythontex}' in text`,
`B = '\usepackage[' in text`, `C = 'pythontex' in text`; an unreadable file
contributes `false`. -/
def tex_text_check (texContent : Option String) : Bool :=
  match texContent with
  | none => false
  | some c =>
    strIn "\\usepackage\x7bpythontex\x7d" c || (strIn "\\usepackage[" c && strIn "pythontex" c)

/-- `needs_pythontex` (lines 133–150): generated `*.pytxcode` files, or the
source-text check. -/
def needsPythontex (env : CompileEnv) : Bool :=
  !env.pytxcodeFiles.isEmpty || tex_text_check env.texContent

/-- Result of the body of `compile_latex` (the part inside its `try`):
the value returned or the exception flowing to the `except` clauses, plus
the subprocess invocations attempted, in order. -/
structure CompileResult where
  outcome : Except PyExn Bool
  passes : List Pass
deriving Repr

/-- The body of `compile_latex` (lines 109–203), before its `except` clauses:
first `latexmk -f` pass; `needs_pythontex` detection; conditionally the
`pythontex` pass (whose return code is only logged) and the final `latexmk`
pass; then the return-code/PDF-existence checks of lines 191–203. -/
def compile_latex_exec (env : CompileEnv) : CompileResult :=
  match env.pass1 with
  | RunResult.raises e => { outcome := Except.error e, passes := [Pass.primary] }
  | RunResult.returns rc1 =>
    if needsPythontex env then
      match env.pythontexRun with
      | RunResult.raises e =>
        { outcome := Except.error e, passes := [Pass.primary, Pass.pythontex] }
      | RunResult.returns _ =>
        match env.finalRun with
        | RunResult.raises e =>
          { outcome := Except.error e, passes := [Pass.primary, Pass.pythontex, Pass.final] }
        | RunResult.returns rcF =>
          if rcF ≠ 0 then
            if env.pdfExists = false then
              { outcome := Except.ok false, passes := [Pass.primary, Pass.pythontex, Pass.final] }
            else
              { outcome := Except.ok env.pdfExists,
                passes := [Pass.primary, Pass.pythontex, Pass.final] }
          else
            { outcome := Except.ok env.pdfExists,
              passes := [Pass.primary, Pass.pythontex, Pass.final] }
    else
      if rc1 ≠ 0 ∧ env.pdfExists = false then
        { outcome := Except.ok false, passes := [Pass.primary] }
      else
        { outcome := Except.ok env.pdfExists, passes := [Pass.primary] }

/-- The `try/except` of `compile_latex` (lines 205–217): `TimeoutExpired`,
`CalledProcessError` and any other `Exception` are each caught and turned
into the return value `False`. -/
def compile_latex_guarded (env : CompileEnv) : Except PyExn Bool :=
  match (compile_latex_exec env).outcome with
  | Except.ok b => Except.ok b
  | Except.error PyExn.timeoutExpired => Except.ok false
  | Except.error PyExn.calledProcessError => Except.ok false
  | Except.error _ => Except.ok false

/-- `compile_latex` as its callers see it: a plain boolean. -/
def compile_latex (env : CompileEnv) : Bool :=
  match compile_latex_guarded env with
  | Except.ok b => b
  | Except.error _ => false

/-! ## Diagnostic extraction (source lines 401–418) -/

/-- One `*.log` file found by `workdir.glob("*.log")`: its content, or `none`
when opening/reading it raises (caught by the inner `except Exception: pass`). -/
structure LogFile where
  content : Option String
deriving DecidableEq, Repr

/-- The lines of `content` that start with the `'! '` error marker. -/
def markerLines (c : String) : List (List Char) :=
  (splitLines c).filter (fun l => startsWithSeq ['!', ' '] l)

/-- The `error_info` computation of lines 402–418: default summary
`"LaTeX compilation failed"`; when the first log file is readable, contains
`"! "` and has a line starting with `'! '`, the summary becomes
`"LaTeX Error: "` followed by that first line with its first two characters
(`error_lines[0][2:]`) removed. -/
def diagnostic_summary (logs : List LogFile) : String :=
  match logs with
  | [] => "LaTeX compilation failed"
  | l :: _ =>
    match l.content with
    | none => "LaTeX compilation failed"
    | some c =>
      if strIn "! " c then
        match markerLines c with
        | line :: _ => "LaTeX Error: " ++ String.mk (line.drop 2)
        | [] => "LaTeX compilation failed"
      else "LaTeX compilation failed"

/-! ## The `/compile` endpoint (source lines 340–446) -/

/-- Entry-document resolution (lines 374–384): `main.tex` at the workspace
root if it exists, else the first element of `workdir.glob("**/*.tex")`,
else nothing. -/
def resolve_entry (rootHasMainTex : Bool) (texFiles : List String) : Option String :=
  if rootHasMainTex then some "main.tex" else texFiles.head?

/-- `shutil.rmtree(dir, ignore_errors)`: when some removal fails, it raises
unless `ignore_errors` is set, in which case it returns leaving content
behind.  The boolean result records whether everything was removed. -/
def shutil_rmtree (ignoreErrors removalsFail : Bool) : Except PyExn Bool :=
  if removalsFail then
    if ignoreErrors then Except.ok false else Except.error (PyExn.otherExn "OSError")
  else Except.ok true

/-- The archive-file cleanup block of the `finally` clause (lines 422–443):
`unlink` (and the optional `rmdir`) may raise, but both `except
PermissionError` and `except Exception` swallow the error, so the block never
raises.  Returns whether an exception escapes (it never does). -/
def archive_cleanup_raises (unlinkRaises : Bool) : Bool :=
  match (if unlinkRaises = true
         then Except.error (PyExn.permissionError "file is locked")
         else Except.ok ()) with
  | Except.ok _ => false
  | Except.error (PyExn.permissionError _) => false
  | Except.error _ => false

/-- HTTP-level result of the endpoint: a PDF download or a 400 JSON error. -/
inductive Response where
  | pdf (downloadName : String)
  | clientError (msg : String)
deriving DecidableEq, Repr

/-- What leaves the endpoint: a response, or an exception propagating to the
framework (only possible from `send_file`/framework calls in the model). -/
inductive EndpointOutcome where
  | response (r : Response)
  | raised (e : PyExn)
deriving DecidableEq, Repr

/-- Observable execution facts of one request: workspace lifecycle and
whether `compile_latex` was invoked. -/
structure ExecTrace where
  workdirCreated : Bool
  compileInvoked : Bool
  rmtreeInvoked : Bool
  rmtreeRaised : Bool
  archiveCleanupRaised : Bool
  workdirRemoved : Bool
deriving DecidableEq, Repr

/-- Inputs of one request to `compile_latex_endpoint`. -/
structure ReqEnv where
  hasFileField : Bool
  filename : String
  caps : Caps
  saveOutcome : Except PyExn FileInfo
  rootHasMainTex : Bool
  texFilesFound : List String
  compileEnv : CompileEnv
  logs : List LogFile
  sendFileOutcome : Except PyExn Unit
  removalFailures : Bool
  archiveUnlinkRaises : Bool

/-- The body of the endpoint's `try` (lines 355–418): save + format check +
extraction (with `except ValueError` / `except Exception` reporting),
entry resolution, compilation, and the success/diagnostic response.  The
boolean records whether `compile_latex` was invoked. -/
def endpoint_try_body (env : ReqEnv) : EndpointOutcome × Bool :=
  match env.saveOutcome with
  | Except.error (PyExn.valueError m) =>
    (EndpointOutcome.response (Response.clientError m), false)
  | Except.error e =>
    (EndpointOutcome.response
      (Response.clientError ("Failed to extract archive: " ++ pyStr e)), false)
  | Except.ok file =>
    if is_archive_file file = false then
      (EndpointOutcome.response (Response.clientError
        ("Unsupported file format. File: " ++ env.filename ++ ", Detected type: "
          ++ detect_file_type file
          ++ ". Supported formats: .7z, .rar, .tar, .tar.bz2, .tar.gz, .tar.xz, .zip")),
       false)
    else
      match (extract_archive env.caps file).2 with
      | Except.error (PyExn.valueError m) =>
        (EndpointOutcome.response (Response.clientError m), false)
      | Except.error e =>
        (EndpointOutcome.response
          (Response.clientError ("Failed to extract archive: " ++ pyStr e)), false)
      | Except.ok _ =>
        match resolve_entry env.rootHasMainTex env.texFilesFound with
        | none =>
          (EndpointOutcome.response (Response.clientError
            "No LaTeX files found. Please ensure your archive contains main.tex or other .tex files."),
           false)
        | some entry =>
          let result := compile_latex env.compileEnv
          if result && env.compileEnv.pdfExists then
            match env.sendFileOutcome with
            | Except.ok _ =>
              (EndpointOutcome.response (Response.pdf (pathStem entry ++ ".pdf")), true)
            | Except.error e => (EndpointOutcome.raised e, true)
          else
            (EndpointOutcome.response
              (Response.clientError (diagnostic_summary env.logs)), true)

/-- `compile_latex_endpoint`: the two pre-workspace rejections, then the
`try` body with its `finally` cleanup (lines 420–446) which always runs —
also on the raised-exception path — and never itself raises. -/
def compile_latex_endpoint (env : ReqEnv) : EndpointOutcome × ExecTrace :=
  if env.hasFileField = false then
    (EndpointOutcome.response (Response.clientError "No file uploaded"),
     { workdirCreated := false, compileInvoked := false, rmtreeInvoked := false,
       rmtreeRaised := false, archiveCleanupRaised := false, workdirRemoved := false })
  else if env.filename = "" then
    (EndpointOutcome.response (Response.clientError "No file selected"),
     { workdirCreated := false, compileInvoked := false, rmtreeInvoked := false,
       rmtreeRaised := false, archiveCleanupRaised := false, workdirRemoved := false })
  else
    let body := endpoint_try_body env
    let rmres := shutil_rmtree true env.removalFailures
    (body.1,
     { workdirCreated := true
       compileInvoked := body.2
       rmtreeInvoked := true
       rmtreeRaised := match rmres with | Except.ok _ => false | Except.error _ => true
       archiveCleanupRaised :=
         match env.saveOutcome with
         | Except.ok _ => archive_cleanup_raises env.archiveUnlinkRaises
         | Except.error _ => false
       workdirRemoved := match rmres with | Except.ok b => b | Except.error _ => false })

/-! ## Concrete sample inputs used by witnesses and counterexamples -/

/-- A job whose final `latexmk` pass exits 1 while the PDF exists. -/
def envFinalNonzero : CompileEnv :=
  { pass1 := RunResult.returns 0, pytxcodeFiles := ["main.pytxcode"], texContent := none,
    pythontexRun := RunResult.returns 0, finalRun := RunResult.returns 1, pdfExists := true }

/-- A job where the first pass produced `*.pytxcode` files. -/
def envPytxNeeded : CompileEnv :=
  { pass1 := RunResult.returns 0, pytxcodeFiles := ["main.pytxcode"], texContent := none,
    pythontexRun := RunResult.returns 0, finalRun := RunResult.returns 0, pdfExists := true }

/-- A job with neither `*.pytxcode` files nor a pythontex mention. -/
def envNoPytx : CompileEnv :=
  { pass1 := RunResult.returns 1, pytxcodeFiles := [], texContent := some "plain document",
    pythontexRun := RunResult.returns 0, finalRun := RunResult.returns 0, pdfExists := false }

/-- Primary pass hits the 300 s timeout. -/
def envT1 : CompileEnv :=
  { pass1 := RunResult.raises PyExn.timeoutExpired, pytxcodeFiles := [], texContent := none,
    pythontexRun := RunResult.returns 0, finalRun := RunResult.returns 0, pdfExists := false }

/-- Pythontex pass hits the timeout. -/
def envT2 : CompileEnv :=
  { pass1 := RunResult.returns 0, pytxcodeFiles := ["a.pytxcode"], texContent := none,
    pythontexRun := RunResult.raises PyExn.timeoutExpired, finalRun := RunResult.returns 0,
    pdfExists := false }

/-- Final pass hits the timeout. -/
def envT3 : CompileEnv :=
  { pass1 := RunResult.returns 0, pytxcodeFiles := ["a.pytxcode"], texContent := none,
    pythontexRun := RunResult.returns 0, finalRun := RunResult.raises PyExn.timeoutExpired,
    pdfExists := false }

/-- Primary pass raises an unexpected (non-timeout, non-CPE) exception. -/
def envBoom : CompileEnv :=
  { pass1 := RunResult.raises (PyExn.otherExn "disk full"), pytxcodeFiles := [],
    texContent := none, pythontexRun := RunResult.returns 0, finalRun := RunResult.returns 0,
    pdfExists := true }

/-- A well-formed tar upload. -/
def tarUploadFile : FileInfo :=
  { name := "upload.tar", magicMime := none, onDisk := true,
    data := ArchiveData.tarA { openOk := true, members := ["main.tex"], corruptTail := false } }

/-- A request whose (only) compilation pass times out; no log files. -/
def timeoutReq : ReqEnv :=
  { hasFileField := true, filename := "proj.tar",
    caps := { rarSupported := true, sevenzSupported := true },
    saveOutcome := Except.ok tarUploadFile,
    rootHasMainTex := true, texFilesFound := ["main.tex"],
    compileEnv := envT1, logs := [], sendFileOutcome := Except.ok (),
    removalFailures := false, archiveUnlinkRaises := false }

/-- The same request, but the pass completes with exit code 1 instead of
timing out. -/
def plainFailReq : ReqEnv :=
  { timeoutReq with
    compileEnv :=
      { pass1 := RunResult.returns 1, pytxcodeFiles := [], texContent := none,
        pythontexRun := RunResult.returns 0, finalRun := RunResult.returns 0,
        pdfExists := false } }

/-- A request that compiles fine but whose `send_file` raises mid-pipeline,
with the archive-unlink and rmtree removals also failing. -/
def crashReq : ReqEnv :=
  { timeoutReq with
    compileEnv := envPytxNeeded,
    sendFileOutcome := Except.error (PyExn.otherExn "socket closed"),
    archiveUnlinkRaises := true }

/-- A request whose workspace contains no `.tex` file at all. -/
def noTexReq : ReqEnv :=
  { timeoutReq with rootHasMainTex := false, texFilesFound := [] }

/-- A structurally valid zip whose second member fails its CRC check. -/
def crcMembers : List ZipMember :=
  [{ name := "good.tex", crcOk := true }, { name := "bad.dat", crcOk := false }]

/-- The corresponding uploaded file. -/
def crcBadZip : FileInfo :=
  { name := "upload.zip", magicMime := none, onDisk := true,
    data := ArchiveData.zipA true crcMembers }

/-- A `.rar` upload (arbitrary parsed content `d`). -/
def rarUpload (d : ArchiveData) : FileInfo :=
  { name := "doc.rar", magicMime := none, onDisk := true, data := d }

/-- A `.7z` upload (arbitrary parsed content `d`). -/
def sevenUpload (d : ArchiveData) : FileInfo :=
  { name := "doc.7z", magicMime := none, onDisk := true, data := d }

/-! ## Claim theorems -/

/-- C1: once the passes have run to completion (no exception escaped to the
`except` clauses), `compile_latex` returns exactly the artifact-existence
check — the return codes of the passes cannot change the verdict. -/
theorem compile_success_iff_artifact (env : CompileEnv) (b : Bool)
    (h : (compile_latex_exec env).outcome = Except.ok b) :
    compile_latex env = env.pdfExists ∧ b = env.pdfExists := by
  have hb : b = env.pdfExists := by
    cases hp : env.pass1 with
    | raises e => simp [compile_latex_exec, hp] at h
    | returns rc1 =>
      by_cases hn : needsPythontex env = true
      · cases hq : env.pythontexRun with
        | raises e => simp [compile_latex_exec, hp, hn, hq] at h
        | returns rcP =>
          cases hf : env.finalRun with
          | raises e => simp [compile_latex_exec, hp, hn, hq, hf] at h
          | returns rcF =>
            simp [compile_latex_exec, hp, hn, hq, hf] at h
            split_ifs at h <;> simp_all
      · simp [compile_latex_exec, hp, hn] at h
        split_ifs at h <;> simp_all
  have hg : compile_latex env = b := by
    unfold compile_latex compile_latex_guarded
    rw [h]
  exact ⟨hg.trans hb, hb⟩

/-- Witness for C1: the final pass exits 1, the PDF exists, and the job
nonetheless reports success. -/
theorem compile_success_iff_artifact_witness :
    (compile_latex_exec envFinalNonzero).outcome = Except.ok true ∧
    compile_latex envFinalNonzero = true :=
  ⟨rfl, (compile_success_iff_artifact envFinalNonzero true rfl).1⟩

/-- C2: after a completed primary pass, the auxiliary (`pythontex`) pass runs
exactly when `*.pytxcode` files were produced or the entry document's text
check fires; when both checks are false, neither the auxiliary nor the final
pass is attempted. -/
theorem aux_pass_detection (env : CompileEnv) (rc1 : Int)
    (h : env.pass1 = RunResult.returns rc1) :
    ((env.pytxcodeFiles.isEmpty = false ∨ tex_text_check env.texContent = true) →
       Pass.pythontex ∈ (compile_latex_exec env).passes) ∧
    (env.pytxcodeFiles.isEmpty = true → tex_text_check env.texContent = false →
       (compile_latex_exec env).passes = [Pass.primary]) := by
  constructor
  · intro hor
    have hn : needsPythontex env = true := by
      unfold needsPythontex
      rcases hor with h1 | h1 <;> simp [h1]
    simp only [compile_latex_exec, h]
    rw [if_pos hn]
    cases hq : env.pythontexRun with
    | raises e => exact List.Mem.tail _ (List.Mem.head _)
    | returns rcP =>
      cases hf : env.finalRun with
      | raises e => exact List.Mem.tail _ (List.Mem.head _)
      | returns rcF => split <;> (try split) <;> (try split_ifs) <;> exact List.Mem.tail _ (List.Mem.head _)
  · intro h1 h2
    have hn : ¬ needsPythontex env = true := by
      unfold needsPythontex
      simp [h1, h2]
    simp only [compile_latex_exec, h]
    rw [if_neg hn]
    split_ifs <;> rfl

/-- Witness for C2: a job with a `*.pytxcode` file runs the auxiliary pass;
a job with neither signal runs the primary pass only. -/
theorem aux_pass_detection_witness :
    Pass.pythontex ∈ (compile_latex_exec envPytxNeeded).passes ∧
    (compile_latex_exec envNoPytx).passes = [Pass.primary] :=
  ⟨(aux_pass_detection envPytxNeeded 0 rfl).1 (Or.inl rfl),
   (aux_pass_detection envNoPytx 1 rfl).2 rfl rfl⟩

/-- C3 counterexample: a request whose only pass times out produces the very
same endpoint output (generic "LaTeX compilation failed", HTTP 400) as a
request whose pass merely exits 1 — there is no distinct CompilationTimeout
report anywhere in the observable behavior. -/
theorem timeout_response_equals_generic_failure :
    (compile_latex_endpoint timeoutReq).1 =
      EndpointOutcome.response (Response.clientError "LaTeX compilation failed") ∧
    compile_latex_endpoint timeoutReq = compile_latex_endpoint plainFailReq :=
  ⟨rfl, rfl⟩

/-- C3 (amended): a timeout at any pass aborts the pipeline — no further
passes are attempted — and `compile_latex` returns `False` through the
`except TimeoutExpired` clause, which is the same value as any generic
compilation failure; no distinct timeout error is reported. -/
theorem timeout_terminates_pipeline (env : CompileEnv) :
    (env.pass1 = RunResult.raises PyExn.timeoutExpired →
       (compile_latex_exec env).passes = [Pass.primary] ∧
       compile_latex_guarded env = Except.ok false ∧ compile_latex env = false) ∧
    (∀ rc1, env.pass1 = RunResult.returns rc1 →
       env.pythontexRun = RunResult.raises PyExn.timeoutExpired →
       needsPythontex env = true →
       (compile_latex_exec env).passes = [Pass.primary, Pass.pythontex] ∧
       compile_latex_guarded env = Except.ok false ∧ compile_latex env = false) ∧
    (∀ rc1 rcP, env.pass1 = RunResult.returns rc1 →
       env.pythontexRun = RunResult.returns rcP →
       env.finalRun = RunResult.raises PyExn.timeoutExpired →
       needsPythontex env = true →
       (compile_latex_exec env).passes = [Pass.primary, Pass.pythontex, Pass.final] ∧
       compile_latex_guarded env = Except.ok false ∧ compile_latex env = false) := by
  refine ⟨fun h => ?_, fun rc1 h1 h2 hn => ?_, fun rc1 rcP h1 h2 h3 hn => ?_⟩
  · simp [compile_latex_exec, compile_latex_guarded, compile_latex, h]
  · simp [compile_latex_exec, compile_latex_guarded, compile_latex, h1, h2, hn]
  · simp [compile_latex_exec, compile_latex_guarded, compile_latex, h1, h2, h3, hn]

/-- Witness for the amended C3 at all three pass positions. -/
theorem timeout_terminates_pipeline_witness :
    ((compile_latex_exec envT1).passes = [Pass.primary] ∧
      compile_latex_guarded envT1 = Except.ok false ∧ compile_latex envT1 = false) ∧
    ((compile_latex_exec envT2).passes = [Pass.primary, Pass.pythontex] ∧
      compile_latex_guarded envT2 = Except.ok false ∧ compile_latex envT2 = false) ∧
    ((compile_latex_exec envT3).passes = [Pass.primary, Pass.pythontex, Pass.final] ∧
      compile_latex_guarded envT3 = Except.ok false ∧ compile_latex envT3 = false) :=
  ⟨(timeout_terminates_pipeline envT1).1 rfl,
   (timeout_terminates_pipeline envT2).2.1 0 rfl rfl rfl,
   (timeout_terminates_pipeline envT3).2.2 0 0 rfl rfl rfl rfl⟩

/-- C4: the extension fallback of `detect_file_type` never resolves a
compound suffix — `Path.suffix` of `doc.tar.gz` is only `.gz`, so the
`.tar.gz/.tar.bz2/.tar.xz` entries of the lookup are unreachable and such
names fall through to the generic unknown type, while plain `.tar` and truly
unrecognized names behave as described. -/
theorem compound_suffix_fallback_dead :
    pathSuffix "doc.tar.gz" = ".gz" ∧
    detect_file_type
      { name := "doc.tar.gz", magicMime := none, onDisk := true, data := ArchiveData.rawBytes }
      = "application/octet-stream" ∧
    detect_file_type
      { name := "doc.tar", magicMime := none, onDisk := true, data := ArchiveData.rawBytes }
      = "application/x-tar" ∧
    detect_file_type
      { name := "doc.weird", magicMime := none, onDisk := true, data := ArchiveData.rawBytes }
      = "application/octet-stream" :=
  ⟨rfl, rfl, rfl, rfl⟩

/-- C5: the zip routine's integrity check is computed and thrown away —
`testzip` names the CRC-corrupt member `bad.dat`, yet `extractall` still
writes `good.tex` and the corrupt `bad.dat` into the destination before the
typed `ValueError` is raised: extraction on integrity failure is partial. -/
theorem zip_integrity_discarded_partial_extraction :
    zip_testzip crcMembers = some "bad.dat" ∧
    extract_archive { rarSupported := true, sevenzSupported := true } crcBadZip =
      (["good.tex", "bad.dat"],
       Except.error (PyExn.valueError "Invalid ZIP file: Bad CRC-32 for file bad.dat")) :=
  ⟨rfl, rfl⟩

/-- C6: once the workspace is created, every exit path of the endpoint —
success, client error, compilation failure, timeout, or an exception raised
mid-pipeline — runs the `finally` cleanup: `shutil.rmtree(..,
ignore_errors=True)` is invoked and never raises, the archive-file cleanup
never raises, and when no removal fails the directory is fully removed. -/
theorem workspace_teardown_every_path (env : ReqEnv)
    (h1 : env.hasFileField = true) (h2 : env.filename ≠ "") :
    (compile_latex_endpoint env).2.workdirCreated = true ∧
    (compile_latex_endpoint env).2.rmtreeInvoked = true ∧
    (compile_latex_endpoint env).2.rmtreeRaised = false ∧
    (compile_latex_endpoint env).2.archiveCleanupRaised = false ∧
    (env.removalFailures = false → (compile_latex_endpoint env).2.workdirRemoved = true) := by
  unfold compile_latex_endpoint
  rw [if_neg (by simp [h1]), if_neg h2]
  refine ⟨rfl, rfl, ?_, ?_, ?_⟩
  · cases h3 : env.removalFailures
    · simp [shutil_rmtree, h3]
    · simp [shutil_rmtree, h3]
  · cases hs : env.saveOutcome
    · simp [hs]
    · cases h4 : env.archiveUnlinkRaises <;> simp [hs, h4, archive_cleanup_raises]
  · intro h3
    simp [shutil_rmtree, h3]

/-- Witness for C6: a request that compiles, then crashes in `send_file`,
with the archive unlink failing — the workspace is still torn down and the
cleanup raises nothing. -/
theorem workspace_teardown_every_path_witness :
    (compile_latex_endpoint crashReq).2.workdirCreated = true ∧
    (compile_latex_endpoint crashReq).2.rmtreeInvoked = true ∧
    (compile_latex_endpoint crashReq).2.rmtreeRaised = false ∧
    (compile_latex_endpoint crashReq).2.archiveCleanupRaised = false ∧
    (compile_latex_endpoint crashReq).2.workdirRemoved = true := by
  obtain ⟨a, b, c, d, e⟩ := workspace_teardown_every_path crashReq rfl (by decide)
  exact ⟨a, b, c, d, e rfl⟩

/-- C7 counterexample: on a log whose first marker line is
`! Undefined control sequence.`, the summary is NOT that line trimmed of its
marker — the code prefixes the fixed label `LaTeX Error: `. -/
theorem diagnostic_summary_keeps_label :
    diagnostic_summary [{ content := some "! Undefined control sequence.\nl.5" }] =
      "LaTeX Error: Undefined control sequence." ∧
    ("LaTeX Error: Undefined control sequence." == "Undefined control sequence.") = false :=
  ⟨rfl, rfl⟩

/-- C7 (amended): the extractor scans only the first log file; with no log,
an unreadable log, or no `'! '`-marked line it returns the generic
`LaTeX compilation failed`; when the content contains the marker and has a
line starting with `'! '`, the summary is the fixed label `LaTeX Error: `
followed by the first such line trimmed of its two marker characters.  It is
a total function — no scan failure escapes. -/
theorem diagnostic_summary_spec (c : String) (line : List Char) (rest : List LogFile) :
    diagnostic_summary [] = "LaTeX compilation failed" ∧
    diagnostic_summary ({ content := none } :: rest) = "LaTeX compilation failed" ∧
    (strIn "! " c = true → (markerLines c).head? = some line →
       diagnostic_summary ({ content := some c } :: rest) =
         "LaTeX Error: " ++ String.mk (line.drop 2)) ∧
    ((markerLines c).head? = none →
       diagnostic_summary ({ content := some c } :: rest) = "LaTeX compilation failed") := by
  refine ⟨rfl, rfl, fun h1 h2 => ?_, fun h0 => ?_⟩
  · simp only [diagnostic_summary]
    rw [if_pos h1]
    cases hm : markerLines c with
    | nil => rw [hm] at h2; cases h2
    | cons l ls =>
      rw [hm] at h2
      simp only [List.head?] at h2
      rw [Option.some.injEq] at h2
      rw [h2]
  · cases hm : markerLines c with
    | cons l ls => rw [hm] at h0; cases h0
    | nil =>
      simp only [diagnostic_summary]
      by_cases h1 : strIn "! " c = true
      · rw [if_pos h1, hm]
      · rw [if_neg h1]

/-- Witness for the amended C7: a marked log yields the labelled trimmed
line; an unmarked log yields the generic summary. -/
theorem diagnostic_summary_spec_witness :
    diagnostic_summary [{ content := some "! Oops\nl.3" }] =
      "LaTeX Error: " ++ String.mk (['!', ' ', 'O', 'o', 'p', 's'].drop 2) ∧
    diagnostic_summary [{ content := some "all fine" }] = "LaTeX compilation failed" :=
  ⟨(diagnostic_summary_spec "! Oops\nl.3" ['!', ' ', 'O', 'o', 'p', 's'] []).2.2.1 rfl rfl,
   (diagnostic_summary_spec "all fine" [] []).2.2.2 rfl⟩

/-- C8: a file recognized as RAR or 7z (detection still reports it as a
supported archive) whose optional module is absent makes extraction fail
with `RuntimeError` — a constructor distinct from the `ValueError` used for
unsupported formats and corrupt zips and from tarfile's `ReadError`. -/
theorem capability_unavailable_distinct (s7 r : Bool) (d d' : ArchiveData) :
    extract_archive { rarSupported := false, sevenzSupported := s7 } (rarUpload d) =
      ([], Except.error
        (PyExn.runtimeError "RAR format not supported (rarfile module not available)")) ∧
    extract_archive { rarSupported := r, sevenzSupported := false } (sevenUpload d') =
      ([], Except.error
        (PyExn.runtimeError "7Z format not supported (py7zr module not available)")) ∧
    is_archive_file (rarUpload d) = true ∧
    is_archive_file (sevenUpload d') = true ∧
    (∀ m n, (PyExn.runtimeError m == PyExn.valueError n) = false) ∧
    (∀ m n, (PyExn.runtimeError m == PyExn.readError n) = false) :=
  ⟨rfl, rfl, rfl, rfl, fun _ _ => rfl, fun _ _ => rfl⟩

/-- C9: `main.tex` at the workspace root wins; otherwise the first document
of the recursive `**/*.tex` search is chosen; with no `.tex` file at all the
request ends in the no-entry-document client error and `compile_latex` is
never invoked. -/
theorem entry_resolution_policy (env : ReqEnv) (f : FileInfo)
    (h3 : env.saveOutcome = Except.ok f) (h4 : is_archive_file f = true)
    (h5 : (extract_archive env.caps f).2 = Except.ok ()) :
    (∀ files : List String, resolve_entry true files = some "main.tex") ∧
    (∀ files : List String, resolve_entry false files = files.head?) ∧
    (env.rootHasMainTex = false → env.texFilesFound = [] →
       endpoint_try_body env =
         (EndpointOutcome.response (Response.clientError
           "No LaTeX files found. Please ensure your archive contains main.tex or other .tex files."),
          false)) := by
  refine ⟨fun files => rfl, fun files => rfl, fun hroot hfiles => ?_⟩
  simp [endpoint_try_body, h3, h4, h5, resolve_entry, hroot, hfiles]

/-- Witness for C9 at a workspace with no `.tex` files and at concrete
search lists. -/
theorem entry_resolution_policy_witness :
    resolve_entry true ["ch1.tex"] = some "main.tex" ∧
    resolve_entry false ["sub/ch1.tex", "b.tex"] = some "sub/ch1.tex" ∧
    endpoint_try_body noTexReq =
      (EndpointOutcome.response (Response.clientError
        "No LaTeX files found. Please ensure your archive contains main.tex or other .tex files."),
       false) := by
  obtain ⟨a, b, c⟩ := entry_resolution_policy noTexReq tarUploadFile rfl rfl rfl
  exact ⟨a ["ch1.tex"], b ["sub/ch1.tex", "b.tex"], c rfl rfl⟩

/-- C10: `compile_latex` is total over its failure modes — its `except`
clauses cover every exception the body can produce, so the guarded call
always yields a boolean (never re-raises), and any exception inside the
passes yields the return value `False`. -/
theorem compile_latex_never_raises (env : CompileEnv) :
    compile_latex_guarded env = Except.ok (compile_latex env) ∧
    (∀ e, (compile_latex_exec env).outcome = Except.error e → compile_latex env = false) := by
  constructor
  · unfold compile_latex
    cases hg : compile_latex_guarded env with
    | ok b => rfl
    | error e =>
      exfalso
      unfold compile_latex_guarded at hg
      cases ho : (compile_latex_exec env).outcome with
      | ok b => rw [ho] at hg; cases hg
      | error e2 =>
        rw [ho] at hg
        cases e2 <;> simp at hg
  · intro e he
    unfold compile_latex compile_latex_guarded
    rw [he]
    cases e <;> rfl

/-- Witness for C10: an unexpected exception in the primary pass is absorbed
and reported as `False`. -/
theorem compile_latex_never_raises_witness :
    compile_latex_guarded envBoom = Except.ok (compile_latex envBoom) ∧
    compile_latex envBoom = false :=
  ⟨(compile_latex_never_raises envBoom).1,
   (compile_latex_never_raises envBoom).2 (PyExn.otherExn "disk full") rfl⟩

/-- Witness for C8 at concrete capability sets and parsed contents. -/
theorem capability_unavailable_distinct_witness :
    extract_archive { rarSupported := false, sevenzSupported := true }
        (rarUpload (ArchiveData.rarA ["main.tex"])) =
      ([], Except.error
        (PyExn.runtimeError "RAR format not supported (rarfile module not available)")) ∧
    is_archive_file (rarUpload (ArchiveData.rarA ["main.tex"])) = true :=
  ⟨(capability_unavailable_distinct true true
      (ArchiveData.rarA ["main.tex"]) ArchiveData.rawBytes).1,
   (capability_unavailable_distinct true true
      (ArchiveData.rarA ["main.tex"]) ArchiveData.rawBytes).2.2.1⟩
